import Mathlib

/-!
Verification of the register-semantics and polling core of the Komfovent
Home Assistant integration.

The definitions below are a shallow embedding of:
  * `custom_components/komfovent/registers.py` — the legacy three-set register
    catalog (`REG_*` addresses and the three classification sets);
  * `custom_components/komfovent/registers2.py` — the descriptor catalog
    (`Access`, `Datatype`, `C4_Registers`);
  * `custom_components/komfovent/modbus.py` — `KomfoventModbusClient.read`
    (decode loop) and `KomfoventModbusClient.write` (encode and wire request);
  * `custom_components/komfovent/coordinator.py` — the C4/C6 poll cycle
    (`_async_update_data_C4`, `_async_update_data_C6`, `_async_update_data`).

Machine integers are modelled as `Nat`/`Int`.  Python `x & 0xFFFF` on an
arbitrary `int` equals `x % 65536` with a non-negative remainder, and Python
`x >> 16` is floor division by `65536`; Lean's `%` on `Int` is the Euclidean
remainder (non-negative for positive modulus) and `/` on `Int` is Euclidean
division (floor for positive divisor), so `% 65536` and `/ 65536` are exact
translations of the Python operators.

Fallible operations return `Except ModelError`.  Wire traffic issued by a
write is reified as a `WireWrite` value, so "no wire traffic" is the absence
of such a value.
-/

namespace Komfovent
def REG_POWER : Nat := 1
def REG_AUTO_MODE_CONTROL : Nat := 2
def REG_ECO_MODE : Nat := 3
def REG_AUTO_MODE : Nat := 4
def REG_OPERATION_MODE : Nat := 5
def REG_SCHEDULER_MODE : Nat := 6
def REG_NEXT_MODE : Nat := 7
def REG_NEXT_MODE_TIME : Nat := 8
def REG_NEXT_MODE_WEEKDAY : Nat := 9
def REG_BEFORE_MODE_MASK : Nat := 10
def REG_TEMP_CONTROL : Nat := 11
def REG_FLOW_CONTROL : Nat := 12
def REG_MAX_SUPPLY_FLOW : Nat := 13
def REG_MAX_EXTRACT_FLOW : Nat := 15
def REG_MAX_SUPPLY_PRESSURE : Nat := 17
def REG_MAX_EXTRACT_PRESSURE : Nat := 18
def REG_ROOM_SENSOR : Nat := 39
def REG_STAGE1 : Nat := 19
def REG_STAGE2 : Nat := 20
def REG_STAGE3 : Nat := 21
def REG_EXTERNAL_COIL_TYPE : Nat := 22
def REG_ICING_PROTECTION : Nat := 40
def REG_INDOOR_HUMIDITY : Nat := 41
def REG_DHCP : Nat := 35
def REG_IP : Nat := 23
def REG_MASK : Nat := 25
def REG_GATEWAY : Nat := 36
def REG_BACNET_ID : Nat := 38
def REG_BACNET_PORT : Nat := 44
def REG_LANGUAGE : Nat := 27
def REG_FLOW_UNIT : Nat := 28
def REG_FIRE_ALARM_RESTART : Nat := 42
def REG_TIME : Nat := 29
def REG_YEAR : Nat := 30
def REG_MONTH_DAY : Nat := 31
def REG_WEEK_DAY : Nat := 32
def REG_EPOCH_TIME : Nat := 33
def REG_AWAY_FAN_SUPPLY : Nat := 100
def REG_AWAY_FAN_EXTRACT : Nat := 102
def REG_AWAY_TEMP : Nat := 104
def REG_AWAY_HEATER : Nat := 105
def REG_NORMAL_FAN_SUPPLY : Nat := 106
def REG_NORMAL_FAN_EXTRACT : Nat := 108
def REG_NORMAL_SETPOINT : Nat := 110
def REG_NORMAL_HEATER : Nat := 111
def REG_INTENSIVE_FAN_SUPPLY : Nat := 112
def REG_INTENSIVE_FAN_EXTRACT : Nat := 114
def REG_INTENSIVE_TEMP : Nat := 116
def REG_INTENSIVE_HEATER : Nat := 117
def REG_BOOST_FAN_SUPPLY : Nat := 118
def REG_BOOST_FAN_EXTRACT : Nat := 120
def REG_BOOST_TEMP : Nat := 122
def REG_BOOST_HEATER : Nat := 123
def REG_KITCHEN_SUPPLY : Nat := 124
def REG_KITCHEN_EXTRACT : Nat := 126
def REG_KITCHEN_TEMP : Nat := 128
def REG_KITCHEN_HEATER : Nat := 129
def REG_KITCHEN_TIMER : Nat := 130
def REG_FIREPLACE_SUPPLY : Nat := 131
def REG_FIREPLACE_EXTRACT : Nat := 133
def REG_FIREPLACE_TEMP : Nat := 135
def REG_FIREPLACE_HEATER : Nat := 136
def REG_FIREPLACE_TIMER : Nat := 137
def REG_OVERRIDE_SUPPLY : Nat := 138
def REG_OVERRIDE_EXTRACT : Nat := 140
def REG_OVERRIDE_TEMP : Nat := 142
def REG_OVERRIDE_HEATER : Nat := 143
def REG_OVERRIDE_ACTIVATION : Nat := 144
def REG_OVERRIDE_TIMER : Nat := 145
def REG_OVERRIDE_DELAY_START : Nat := 157
def REG_OVERRIDE_DELAY_STOP : Nat := 158
def REG_HOLIDAYS_MICRO_VENT : Nat := 146
def REG_HOLIDAYS_TEMP : Nat := 147
def REG_HOLIDAYS_HEATER : Nat := 148
def REG_HOLIDAYS_FROM : Nat := 149
def REG_HOLIDAYS_UNTIL : Nat := 151
def REG_HOLIDAYS_YEAR_FROM : Nat := 153
def REG_HOLIDAYS_DATE_FROM : Nat := 154
def REG_HOLIDAYS_YEAR_TILL : Nat := 155
def REG_HOLIDAYS_DATE_TILL : Nat := 156
def REG_ECO_MIN_TEMP : Nat := 200
def REG_ECO_MAX_TEMP : Nat := 201
def REG_ECO_FREE_HEAT_COOL : Nat := 202
def REG_ECO_HEATER_BLOCKING : Nat := 203
def REG_ECO_COOLER_BLOCKING : Nat := 204
def REG_ECO_HEAT_RECOVERY : Nat := 217
def REG_AQ_IMPURITY_CONTROL : Nat := 205
def REG_AQ_TEMP_SETPOINT : Nat := 206
def REG_AQ_IMPURITY_SETPOINT : Nat := 207
def REG_AQ_HUMIDITY_SETPOINT : Nat := 208
def REG_AQ_MIN_INTENSITY : Nat := 209
def REG_AQ_MAX_INTENSITY : Nat := 210
def REG_AQ_ELECTRIC_HEATER : Nat := 211
def REG_AQ_CHECK_PERIOD : Nat := 212
def REG_AQ_SENSOR1_TYPE : Nat := 213
def REG_AQ_SENSOR2_TYPE : Nat := 214
def REG_AQ_HUMIDITY_CONTROL : Nat := 215
def REG_AQ_OUTDOOR_HUMIDITY : Nat := 216
def REG_ACTIVE_ALARMS_COUNT : Nat := 600
def REG_ACTIVE_ALARM1 : Nat := 601
def REG_ACTIVE_ALARM2 : Nat := 602
def REG_ACTIVE_ALARM3 : Nat := 603
def REG_ACTIVE_ALARM4 : Nat := 604
def REG_ACTIVE_ALARM5 : Nat := 605
def REG_ACTIVE_ALARM6 : Nat := 606
def REG_ACTIVE_ALARM7 : Nat := 607
def REG_ACTIVE_ALARM8 : Nat := 608
def REG_ACTIVE_ALARM9 : Nat := 609
def REG_ACTIVE_ALARM10 : Nat := 610
def REG_STATUS : Nat := 900
def REG_HEATING_CONFIG : Nat := 901
def REG_SUPPLY_TEMP : Nat := 902
def REG_EXTRACT_TEMP : Nat := 903
def REG_OUTDOOR_TEMP : Nat := 904
def REG_WATER_TEMP : Nat := 905
def REG_SUPPLY_FLOW : Nat := 906
def REG_EXTRACT_FLOW : Nat := 908
def REG_SUPPLY_FAN : Nat := 910
def REG_EXTRACT_FAN : Nat := 911
def REG_HEAT_EXCHANGER : Nat := 912
def REG_ELECTRIC_HEATER : Nat := 913
def REG_WATER_HEATER : Nat := 914
def REG_WATER_COOLER : Nat := 915
def REG_DX_UNIT : Nat := 916
def REG_FILTER_CLOGGING : Nat := 917
def REG_AIR_DAMPERS : Nat := 918
def REG_SUPPLY_PRESSURE : Nat := 919
def REG_EXTRACT_PRESSURE : Nat := 920
def REG_EXTRACT_AQ_1 : Nat := 952
def REG_EXTRACT_AQ_2 : Nat := 953
def REG_HEAT_EXCHANGER_TYPE : Nat := 955
def REG_INDOOR_ABS_HUMIDITY : Nat := 956
def REG_OUTDOOR_ABS_HUMIDITY : Nat := 957
def REG_EXHAUST_TEMP : Nat := 961
def REG_POWER_CONSUMPTION : Nat := 921
def REG_HEATER_POWER : Nat := 922
def REG_HEAT_RECOVERY : Nat := 923
def REG_HEAT_EFFICIENCY : Nat := 924
def REG_ENERGY_SAVING : Nat := 925
def REG_SPI : Nat := 926
def REG_AHU_DAY : Nat := 927
def REG_AHU_MONTH : Nat := 929
def REG_AHU_TOTAL : Nat := 931
def REG_HEATER_DAY : Nat := 933
def REG_HEATER_MONTH : Nat := 935
def REG_HEATER_TOTAL : Nat := 937
def REG_RECOVERY_DAY : Nat := 939
def REG_RECOVERY_MONTH : Nat := 941
def REG_RECOVERY_TOTAL : Nat := 943
def REG_SPI_DAY : Nat := 945
def REG_PANEL1_TEMP : Nat := 946
def REG_PANEL1_RH : Nat := 947
def REG_PANEL1_AQ : Nat := 948
def REG_PANEL2_TEMP : Nat := 949
def REG_PANEL2_RH : Nat := 950
def REG_PANEL2_AQ : Nat := 951
def REG_CONNECTED_PANELS : Nat := 954
def REG_DO_ALARM : Nat := 958
def REG_DO_HEATING : Nat := 959
def REG_DO_COOLING : Nat := 960
def REG_FIRMWARE : Nat := 1000
def REG_PANEL1_FW : Nat := 1002
def REG_PANEL2_FW : Nat := 1004
def REG_RESET_SETTINGS : Nat := 1050
def REG_CLEAN_FILTERS : Nat := 1051

def REGISTERS_16BIT_UNSIGNED : List Nat := [
  REG_POWER,
  REG_AUTO_MODE_CONTROL,
  REG_ECO_MODE,
  REG_AUTO_MODE,
  REG_OPERATION_MODE,
  REG_SCHEDULER_MODE,
  REG_NEXT_MODE,
  REG_NEXT_MODE_TIME,
  REG_NEXT_MODE_WEEKDAY,
  REG_BEFORE_MODE_MASK,
  REG_TEMP_CONTROL,
  REG_FLOW_CONTROL,
  REG_MAX_SUPPLY_PRESSURE,
  REG_MAX_EXTRACT_PRESSURE,
  REG_ROOM_SENSOR,
  REG_STAGE1,
  REG_STAGE2,
  REG_STAGE3,
  REG_EXTERNAL_COIL_TYPE,
  REG_ICING_PROTECTION,
  REG_INDOOR_HUMIDITY,
  REG_DHCP,
  REG_BACNET_PORT,
  REG_LANGUAGE,
  REG_FLOW_UNIT,
  REG_FIRE_ALARM_RESTART,
  REG_TIME,
  REG_YEAR,
  REG_MONTH_DAY,
  REG_WEEK_DAY,
  REG_AWAY_HEATER,
  REG_NORMAL_HEATER,
  REG_INTENSIVE_HEATER,
  REG_BOOST_HEATER,
  REG_KITCHEN_HEATER,
  REG_KITCHEN_TIMER,
  REG_FIREPLACE_HEATER,
  REG_FIREPLACE_TIMER,
  REG_OVERRIDE_HEATER,
  REG_OVERRIDE_ACTIVATION,
  REG_OVERRIDE_ACTIVATION,
  REG_OVERRIDE_TIMER,
  REG_OVERRIDE_DELAY_START,
  REG_OVERRIDE_DELAY_STOP,
  REG_HOLIDAYS_MICRO_VENT,
  REG_HOLIDAYS_HEATER,
  REG_HOLIDAYS_YEAR_FROM,
  REG_HOLIDAYS_DATE_FROM,
  REG_HOLIDAYS_YEAR_TILL,
  REG_HOLIDAYS_DATE_TILL,
  REG_ECO_MIN_TEMP,
  REG_ECO_MAX_TEMP,
  REG_ECO_FREE_HEAT_COOL,
  REG_ECO_HEATER_BLOCKING,
  REG_ECO_COOLER_BLOCKING,
  REG_AQ_IMPURITY_CONTROL,
  REG_AQ_IMPURITY_SETPOINT,
  REG_AQ_HUMIDITY_SETPOINT,
  REG_AQ_MIN_INTENSITY,
  REG_AQ_MAX_INTENSITY,
  REG_AQ_ELECTRIC_HEATER,
  REG_AQ_CHECK_PERIOD,
  REG_AQ_SENSOR1_TYPE,
  REG_AQ_SENSOR2_TYPE,
  REG_AQ_HUMIDITY_CONTROL,
  REG_AQ_OUTDOOR_HUMIDITY,
  REG_ECO_HEAT_RECOVERY,
  REG_ACTIVE_ALARMS_COUNT,
  REG_ACTIVE_ALARM1,
  REG_ACTIVE_ALARM2,
  REG_ACTIVE_ALARM3,
  REG_ACTIVE_ALARM4,
  REG_ACTIVE_ALARM5,
  REG_ACTIVE_ALARM6,
  REG_ACTIVE_ALARM7,
  REG_ACTIVE_ALARM8,
  REG_ACTIVE_ALARM9,
  REG_ACTIVE_ALARM10,
  REG_STATUS,
  REG_HEATING_CONFIG,
  REG_SUPPLY_FAN,
  REG_EXTRACT_FAN,
  REG_HEAT_EXCHANGER,
  REG_ELECTRIC_HEATER,
  REG_WATER_HEATER,
  REG_WATER_COOLER,
  REG_FILTER_CLOGGING,
  REG_AIR_DAMPERS,
  REG_SUPPLY_PRESSURE,
  REG_EXTRACT_PRESSURE,
  REG_POWER_CONSUMPTION,
  REG_HEATER_POWER,
  REG_HEAT_RECOVERY,
  REG_HEAT_EFFICIENCY,
  REG_ENERGY_SAVING,
  REG_SPI,
  REG_SPI_DAY,
  REG_PANEL1_AQ,
  REG_PANEL2_AQ,
  REG_EXTRACT_AQ_1,
  REG_EXTRACT_AQ_2,
  REG_CONNECTED_PANELS,
  REG_HEAT_EXCHANGER_TYPE,
  REG_INDOOR_ABS_HUMIDITY,
  REG_OUTDOOR_ABS_HUMIDITY,
  REG_DO_ALARM,
  REG_DO_HEATING,
  REG_DO_COOLING,
  REG_RESET_SETTINGS,
  REG_CLEAN_FILTERS
]

def REGISTERS_16BIT_SIGNED : List Nat := [
  REG_AWAY_TEMP,
  REG_NORMAL_SETPOINT,
  REG_INTENSIVE_TEMP,
  REG_BOOST_TEMP,
  REG_KITCHEN_TEMP,
  REG_FIREPLACE_TEMP,
  REG_OVERRIDE_TEMP,
  REG_HOLIDAYS_TEMP,
  REG_AQ_TEMP_SETPOINT,
  REG_SUPPLY_TEMP,
  REG_EXTRACT_TEMP,
  REG_OUTDOOR_TEMP,
  REG_WATER_TEMP,
  REG_DX_UNIT,
  REG_PANEL1_TEMP,
  REG_PANEL1_RH,
  REG_PANEL2_TEMP,
  REG_PANEL2_RH,
  REG_EXHAUST_TEMP
]

def REGISTERS_32BIT_UNSIGNED : List Nat := [
  REG_MAX_SUPPLY_FLOW,
  REG_MAX_EXTRACT_FLOW,
  REG_IP,
  REG_MASK,
  REG_GATEWAY,
  REG_BACNET_ID,
  REG_EPOCH_TIME,
  REG_AWAY_FAN_SUPPLY,
  REG_AWAY_FAN_EXTRACT,
  REG_NORMAL_FAN_SUPPLY,
  REG_NORMAL_FAN_EXTRACT,
  REG_INTENSIVE_FAN_SUPPLY,
  REG_INTENSIVE_FAN_EXTRACT,
  REG_BOOST_FAN_SUPPLY,
  REG_BOOST_FAN_EXTRACT,
  REG_KITCHEN_SUPPLY,
  REG_KITCHEN_EXTRACT,
  REG_FIREPLACE_SUPPLY,
  REG_FIREPLACE_EXTRACT,
  REG_OVERRIDE_SUPPLY,
  REG_OVERRIDE_EXTRACT,
  REG_HOLIDAYS_FROM,
  REG_HOLIDAYS_UNTIL,
  REG_SUPPLY_FLOW,
  REG_EXTRACT_FLOW,
  REG_AHU_DAY,
  REG_AHU_MONTH,
  REG_AHU_TOTAL,
  REG_HEATER_DAY,
  REG_HEATER_MONTH,
  REG_HEATER_TOTAL,
  REG_RECOVERY_DAY,
  REG_RECOVERY_MONTH,
  REG_RECOVERY_TOTAL,
  REG_FIRMWARE,
  REG_PANEL1_FW,
  REG_PANEL2_FW
]

/-! ## Generic helpers -/

/-- Whether an `Except` outcome is a raised error. -/
def isFail {ε α : Type} : Except ε α → Bool
  | .error _ => true
  | .ok _ => false

/-- Whether an `Except` outcome is a success. -/
def isOk {ε α : Type} : Except ε α → Bool
  | .error _ => false
  | .ok _ => true

instance {ε α : Type} [DecidableEq ε] [DecidableEq α] :
    DecidableEq (Except ε α) := fun a b =>
  match a, b with
  | .error e, .error f => decidable_of_iff (e = f) (by simp)
  | .ok x, .ok y => decidable_of_iff (x = y) (by simp)
  | .error _, .ok _ => .isFalse fun h => Except.noConfusion h
  | .ok _, .error _ => .isFalse fun h => Except.noConfusion h

/-! ## Association-list dictionaries

Python `dict` semantics: insertion order is preserved, assigning to an
existing key replaces its value in place, lookup returns the stored value. -/

/-- Keys of an association list, in insertion order. -/
def dkeys {α : Type} (d : List (Nat × α)) : List Nat := d.map Prod.fst

/-- First-match lookup in an association list. -/
def alookup {α : Type} : List (Nat × α) → Nat → Option α
  | [], _ => none
  | (k', v') :: rest, k => if k' = k then some v' else alookup rest k

/-- Python `d[k] = v`: replace the value of `k` in place, or append. -/
def dinsert {α : Type} : List (Nat × α) → Nat → α → List (Nat × α)
  | [], k, v => [(k, v)]
  | (k', v') :: rest, k, v =>
      if k' = k then (k', v) :: rest else (k', v') :: dinsert rest k v

/-- Python `d.get(k, dflt)`. -/
def dgetD {α : Type} (d : List (Nat × α)) (k : Nat) (dflt : α) : α :=
  (alookup d k).getD dflt

/-! ## Errors and wire traffic -/

/-- Failure modes of the embedded client and coordinator:
`modbusError` for a device-reported error (`ModbusException`),
`valueError` for a missing 32-bit low word (`ValueError`),
`notImplemented` for addresses outside every classification set
(`NotImplementedError`), `accessDenied` for a write to a read-only
descriptor, and `updateFailed` for the coordinator's `UpdateFailed`. -/
inductive ModelError : Type
  | modbusError : ModelError
  | valueError : Nat → ModelError
  | notImplemented : List Nat → ModelError
  | accessDenied : ModelError
  | updateFailed : ModelError
deriving DecidableEq, Repr

/-- One wire-level write request: `single` is pymodbus `write_register`
(one address, one word), `multi` is `write_registers` (one address, a list
of words sent in a single transaction). -/
inductive WireWrite : Type
  | single : Nat → Int → WireWrite
  | multi : Nat → List Int → WireWrite
deriving DecidableEq, Repr

/-- Wire traffic produced by a write outcome: an error produces none. -/
def wireOf (r : Except ModelError WireWrite) : List WireWrite :=
  match r with
  | .ok w => [w]
  | .error _ => []

/-! ## Wire codec and the legacy client's read

Embeds `KomfoventModbusClient.read` (modbus.py lines 46-87). The transport
response is the list `words` of raw 16-bit words; `register` is the 1-based
starting address, so the block pairs each word with its absolute address. -/

/-- Embeds modbus.py line 70: `value - (value >> 15 << 16)`, the int16
reinterpretation of a raw word. -/
def toInt16 (value : Nat) : Int :=
  (value : Int) - (((value >>> 15) <<< 16 : Nat) : Int)

/-- Embeds modbus.py line 78: `(value << 16) + block[reg + 1]`, the uint32
combination of a high and a low word. -/
def decodeUint32 (high low : Nat) : Nat := (high <<< 16) + low

/-- Embeds modbus.py line 58: `dict(enumerate(result.registers, start=register))`. -/
def enumFrom (start : Nat) : List Nat → List (Nat × Nat)
  | [] => []
  | w :: ws => (start, w) :: enumFrom (start + 1) ws

/-- Intermediate state of the decode loop of `KomfoventModbusClient.read`:
the `converted` set and the `data` dictionary. -/
structure DecodeState : Type where
  converted : List Nat
  data : List (Nat × Int)

/-- Embeds one iteration of the decode loop (modbus.py lines 62-78):
classify the address, convert the word, record coverage; a 32-bit address
whose low word is missing from the block raises `ValueError`; an address in
no set is left unconverted. -/
def decodeStep (block : List (Nat × Nat)) (st : DecodeState) (reg value : Nat) :
    Except ModelError DecodeState :=
  if reg ∈ REGISTERS_16BIT_UNSIGNED then
    .ok ⟨reg :: st.converted, dinsert st.data reg (value : Int)⟩
  else if reg ∈ REGISTERS_16BIT_SIGNED then
    .ok ⟨reg :: st.converted, dinsert st.data reg (toInt16 value)⟩
  else if reg ∈ REGISTERS_32BIT_UNSIGNED then
    match alookup block (reg + 1) with
    | none => .error (.valueError (reg + 1))
    | some low =>
        .ok ⟨(reg + 1) :: reg :: st.converted,
             dinsert st.data reg ((decodeUint32 value low : Nat) : Int)⟩
  else
    .ok st

/-- The decode loop over the block entries, in address order. -/
def decodeLoop (block : List (Nat × Nat)) :
    List (Nat × Nat) → DecodeState → Except ModelError DecodeState
  | [], st => .ok st
  | (reg, value) :: rest, st =>
      match decodeStep block st reg value with
      | .error e => .error e
      | .ok st' => decodeLoop block rest st'

/-- Embeds modbus.py line 80: `set(block.keys()) - converted`, the block
addresses left unconverted by the decode loop. -/
def notConvertedOf (block : List (Nat × Nat)) (st : DecodeState) : List Nat :=
  (block.map Prod.fst).filter (fun k => decide (k ∉ st.converted))

/-- Embeds `KomfoventModbusClient.read` after a successful transport
exchange (modbus.py lines 57-87): decode the block, then raise
`NotImplementedError` if any block address was not converted. -/
def readDecode (register : Nat) (words : List Nat) :
    Except ModelError (List (Nat × Int)) :=
  match decodeLoop (enumFrom register words) (enumFrom register words) ⟨[], []⟩ with
  | .error e => .error e
  | .ok st =>
      match notConvertedOf (enumFrom register words) st with
      | [] => .ok st.data
      | ks => .error (.notImplemented ks)

/-! ## The legacy client's write

Embeds `KomfoventModbusClient.write` (modbus.py lines 89-117).  The value a
caller supplies is a Python `int`, modelled as `Int`; the wire request that
would be handed to pymodbus is returned as a `WireWrite`. Python
`value & 0xFFFF` is `value % 65536` and `value >> 16` is `value / 65536`
(see the module docstring). -/

/-- Embeds `KomfoventModbusClient.write`: classify the register, encode the
value, and issue exactly one wire request; unclassified registers raise
`NotImplementedError` with no wire traffic. -/
def write (register : Nat) (value : Int) : Except ModelError WireWrite :=
  if register ∈ REGISTERS_16BIT_UNSIGNED then
    .ok (.single (register - 1) value)
  else if register ∈ REGISTERS_16BIT_SIGNED then
    .ok (.single (register - 1) (value % 65536))
  else if register ∈ REGISTERS_32BIT_UNSIGNED then
    .ok (.multi (register - 1) [(value / 65536) % 65536, value % 65536])
  else
    .error (.notImplemented [register])

/-- The int16 encoding used by `write` for signed registers
(modbus.py line 97), as a 16-bit word. -/
def encodeInt16 (value : Int) : Nat := (value % 65536).toNat

/-! ## Descriptor catalog

Embeds registers2.py: the access mode and datatype of a register, and the
`C4_Registers` descriptor table (each entry annotated with its Python name). -/

/-- Embeds `Access` (registers2.py lines 13-15). -/
inductive Access : Type
  | READ_ONLY : Access
  | READ_WRITE : Access
deriving DecidableEq, Repr

/-- Embeds `Datatype` (registers2.py lines 19-26). -/
inductive Datatype : Type
  | boolean : Datatype
  | int8 : Datatype
  | uint8 : Datatype
  | int16 : Datatype
  | uint16 : Datatype
  | int32 : Datatype
  | uint32 : Datatype
deriving DecidableEq, Repr

/-- Embeds the `Registers` enum members (registers2.py lines 30-34): an
address together with its datatype and access mode. -/
structure RegisterDesc : Type where
  address : Nat
  datatype : Datatype
  access : Access
deriving DecidableEq, Repr
/-- Part 1 of the `C4_Registers` table (split for elaboration). -/
def C4_RegistersPart1 : List RegisterDesc := [
  ⟨1000, .int8, .READ_WRITE⟩,  -- POWER
  ⟨1001, .int8, .READ_WRITE⟩,  -- SEASON
  ⟨1002, .uint16, .READ_WRITE⟩,  -- TIME
  ⟨1003, .int8, .READ_WRITE⟩,  -- DAY_OF_THE_WEEK
  ⟨1004, .uint16, .READ_ONLY⟩,  -- MONTH_DAY
  ⟨1005, .int8, .READ_WRITE⟩,  -- YEAR
  ⟨1006, .int8, .READ_WRITE⟩,  -- MODBUS_ADDRESS
  ⟨1007, .boolean, .READ_ONLY⟩,  -- ALARM_STATUS_WARNINGS
  ⟨1008, .boolean, .READ_ONLY⟩,  -- ALARM_STATUS_STOP_FLAGS
  ⟨1009, .boolean, .READ_ONLY⟩,  -- ALARM_STATUS_STOP_CODE
  ⟨1010, .int8, .READ_ONLY⟩,  -- RECUPERATOR_LEVEL
  ⟨1011, .int8, .READ_ONLY⟩,  -- ELECTRIC_HEATER_LEVEL
  ⟨1012, .int8, .READ_ONLY⟩,  -- WATER_HEATING_LEVEL
  ⟨1013, .int8, .READ_ONLY⟩,  -- WATER_COOLING_LEVEL
  ⟨1100, .int8, .READ_WRITE⟩,  -- VENTILATION_LEVEL_MANUAL
  ⟨1101, .int8, .READ_ONLY⟩,  -- VENTILATION_LEVEL_CURRENT
  ⟨1102, .int8, .READ_WRITE⟩,  -- MODE
  ⟨1103, .int8, .READ_WRITE⟩,  -- INTAKE_VENTILATION_LEVEL1
  ⟨1104, .int8, .READ_WRITE⟩,  -- INTAKE_VENTILATION_LEVEL2
  ⟨1105, .int8, .READ_WRITE⟩,  -- INTAKE_VENTILATION_LEVEL3
  ⟨1106, .int8, .READ_WRITE⟩,  -- INTAKE_VENTILATION_LEVEL4
  ⟨1107, .int8, .READ_WRITE⟩,  -- EXHAUST_VENTILATION_LEVEL1
  ⟨1108, .int8, .READ_WRITE⟩,  -- EXHAUST_VENTILATION_LEVEL2
  ⟨1109, .int8, .READ_WRITE⟩,  -- EXHAUST_VENTILATION_LEVEL3
  ⟨1110, .int8, .READ_WRITE⟩  -- EXHAUST_VENTILATION_LEVEL4
]

/-- Part 2 of the `C4_Registers` table (split for elaboration). -/
def C4_RegistersPart2 : List RegisterDesc := [
  ⟨1111, .int8, .READ_WRITE⟩,  -- OVR_ENABLE
  ⟨1112, .int8, .READ_WRITE⟩,  -- OVR_TIME_SET
  ⟨1113, .int8, .READ_ONLY⟩,  -- OVR_TIME_GET
  ⟨1114, .boolean, .READ_ONLY⟩,  -- AHU_FAN_STATUS
  ⟨1115, .int8, .READ_ONLY⟩,  -- SUPPLY_FAN_LEVEL
  ⟨1116, .int8, .READ_ONLY⟩,  -- EXHAUST_FAN_LEVEL
  ⟨1200, .int8, .READ_ONLY⟩,  -- SUPPLY_AIR_TEMP
  ⟨1201, .int8, .READ_WRITE⟩,  -- SETPOINT_TEMP
  ⟨1202, .int8, .READ_WRITE⟩,  -- TEMP_CORRECTION
  ⟨1203, .int16, .READ_WRITE⟩,  -- TEMP_CORRECTION_START_TIME
  ⟨1204, .int16, .READ_WRITE⟩,  -- TEMP_CORRECTION_STOP_TIME
  ⟨1203, .int8, .READ_ONLY⟩,  -- WATER_TEMP
  ⟨1300, .uint16, .READ_WRITE⟩,  -- MONDAY_START_TIME1
  ⟨1301, .uint16, .READ_WRITE⟩,  -- MONDAY_STOP_TIME1
  ⟨1302, .uint16, .READ_WRITE⟩,  -- MONDAY_START_TIME2
  ⟨1303, .uint16, .READ_WRITE⟩,  -- MONDAY_STOP_TIME2
  ⟨1304, .uint16, .READ_WRITE⟩,  -- MONDAY_START_TIME3
  ⟨1305, .uint16, .READ_WRITE⟩,  -- MONDAY_STOP_TIME3
  ⟨1306, .uint16, .READ_WRITE⟩,  -- TUESDAY_START_TIME1
  ⟨1307, .uint16, .READ_WRITE⟩,  -- TUESDAY_STOP_TIME1
  ⟨1308, .uint16, .READ_WRITE⟩,  -- TUESDAY_START_TIME2
  ⟨1309, .uint16, .READ_WRITE⟩,  -- TUESDAY_STOP_TIME2
  ⟨1310, .uint16, .READ_WRITE⟩,  -- TUESDAY_START_TIME3
  ⟨1311, .uint16, .READ_WRITE⟩,  -- TUESDAY_STOP_TIME3
  ⟨1312, .uint16, .READ_WRITE⟩  -- WEDNESDAY_START_TIME1
]

/-- Part 3 of the `C4_Registers` table (split for elaboration). -/
def C4_RegistersPart3 : List RegisterDesc := [
  ⟨1313, .uint16, .READ_WRITE⟩,  -- WEDNESDAY_STOP_TIME1
  ⟨1314, .uint16, .READ_WRITE⟩,  -- WEDNESDAY_START_TIME2
  ⟨1315, .uint16, .READ_WRITE⟩,  -- WEDNESDAY_STOP_TIME2
  ⟨1316, .uint16, .READ_WRITE⟩,  -- WEDNESDAY_START_TIME3
  ⟨1317, .uint16, .READ_WRITE⟩,  -- WEDNESDAY_STOP_TIME3
  ⟨1318, .uint16, .READ_WRITE⟩,  -- THURSDAY_START_TIME1
  ⟨1319, .uint16, .READ_WRITE⟩,  -- THURSDAY_STOP_TIME1
  ⟨1320, .uint16, .READ_WRITE⟩,  -- THURSDAY_START_TIME2
  ⟨1321, .uint16, .READ_WRITE⟩,  -- THURSDAY_STOP_TIME2
  ⟨1322, .uint16, .READ_WRITE⟩,  -- THURSDAY_START_TIME3
  ⟨1323, .uint16, .READ_WRITE⟩,  -- THURSDAY_STOP_TIME3
  ⟨1324, .uint16, .READ_WRITE⟩,  -- FRIDAY_START_TIME1
  ⟨1325, .uint16, .READ_WRITE⟩,  -- FRIDAY_STOP_TIME1
  ⟨1326, .uint16, .READ_WRITE⟩,  -- FRIDAY_START_TIME2
  ⟨1327, .uint16, .READ_WRITE⟩,  -- FRIDAY_STOP_TIME2
  ⟨1328, .uint16, .READ_WRITE⟩,  -- FRIDAY_START_TIME3
  ⟨1329, .uint16, .READ_WRITE⟩,  -- FRIDAY_STOP_TIME3
  ⟨1330, .uint16, .READ_WRITE⟩,  -- SATURDAY_START_TIME1
  ⟨1331, .uint16, .READ_WRITE⟩,  -- SATURDAY_STOP_TIME1
  ⟨1332, .uint16, .READ_WRITE⟩,  -- SATURDAY_START_TIME2
  ⟨1333, .uint16, .READ_WRITE⟩,  -- SATURDAY_STOP_TIME2
  ⟨1334, .uint16, .READ_WRITE⟩,  -- SATURDAY_START_TIME3
  ⟨1335, .uint16, .READ_WRITE⟩,  -- SATURDAY_STOP_TIME3
  ⟨1336, .uint16, .READ_WRITE⟩,  -- SUNDAY_START_TIME1
  ⟨1337, .uint16, .READ_WRITE⟩  -- SUNDAY_STOP_TIME1
]

/-- Part 4 of the `C4_Registers` table (split for elaboration). -/
def C4_RegistersPart4 : List RegisterDesc := [
  ⟨1338, .uint16, .READ_WRITE⟩,  -- SUNDAY_START_TIME2
  ⟨1339, .uint16, .READ_WRITE⟩,  -- SUNDAY_STOP_TIME2
  ⟨1340, .uint16, .READ_WRITE⟩,  -- SUNDAY_START_TIME3
  ⟨1341, .uint16, .READ_WRITE⟩,  -- SUNDAY_STOP_TIME3
  ⟨1342, .int8, .READ_ONLY⟩,  -- MONDAY_VENTILATION_LEVEL1
  ⟨1343, .int8, .READ_ONLY⟩,  -- MONDAY_VENTILATION_LEVEL2
  ⟨1344, .int8, .READ_ONLY⟩,  -- MONDAY_VENTILATION_LEVEL3
  ⟨1345, .int8, .READ_ONLY⟩,  -- TUESDAY_VENTILATION_LEVEL1
  ⟨1346, .int8, .READ_ONLY⟩,  -- TUESDAY_VENTILATION_LEVEL2
  ⟨1347, .int8, .READ_ONLY⟩,  -- TUESDAY_VENTILATION_LEVEL3
  ⟨1348, .int8, .READ_ONLY⟩,  -- WEDNESDAY_VENTILATION_LEVEL1
  ⟨1349, .int8, .READ_ONLY⟩,  -- WEDNESDAY_VENTILATION_LEVEL2
  ⟨1350, .int8, .READ_ONLY⟩,  -- WEDNESDAY_VENTILATION_LEVEL3
  ⟨1351, .int8, .READ_ONLY⟩,  -- THURSDAY_VENTILATION_LEVEL1
  ⟨1352, .int8, .READ_ONLY⟩,  -- THURSDAY_VENTILATION_LEVEL2
  ⟨1353, .int8, .READ_ONLY⟩,  -- THURSDAY_VENTILATION_LEVEL3
  ⟨1354, .int8, .READ_ONLY⟩,  -- FRIDAY_VENTILATION_LEVEL1
  ⟨1355, .int8, .READ_ONLY⟩,  -- FRIDAY_VENTILATION_LEVEL2
  ⟨1356, .int8, .READ_ONLY⟩,  -- FRIDAY_VENTILATION_LEVEL3
  ⟨1357, .int8, .READ_ONLY⟩,  -- SATURDAY_VENTILATION_LEVEL1
  ⟨1358, .int8, .READ_ONLY⟩,  -- SATURDAY_VENTILATION_LEVEL2
  ⟨1359, .int8, .READ_ONLY⟩,  -- SATURDAY_VENTILATION_LEVEL3
  ⟨1360, .int8, .READ_ONLY⟩,  -- SUNDAY_VENTILATION_LEVEL1
  ⟨1361, .int8, .READ_ONLY⟩,  -- SUNDAY_VENTILATION_LEVEL2
  ⟨1362, .int8, .READ_ONLY⟩  -- SUNDAY_VENTILATION_LEVEL3
]

/-- Embeds `C4_Registers` (registers2.py lines 39-162): the descriptor
table of the C4 controller, each entry annotated with its Python name. -/
def C4_Registers : List RegisterDesc :=
  C4_RegistersPart1 ++ C4_RegistersPart2 ++ C4_RegistersPart3 ++ C4_RegistersPart4

/-- Modelled from the spec: the encoding half of the Wire Codec for the
descriptor catalog (spec section 4.2), whose Python implementation (the
descriptor-based client used by the coordinator) is not under src/.
Encoding rules per the spec: boolean coerces any nonzero input to 1; int16
masks to 16 bits; 32-bit values split into high word first, low word second;
the remaining single-word types are transmitted as-is. -/
def encodeValue (dt : Datatype) (value : Int) : List Int :=
  match dt with
  | .boolean => [if value ≠ 0 then 1 else 0]
  | .int16 => [value % 65536]
  | .int32 => [(value / 65536) % 65536, value % 65536]
  | .uint32 => [(value / 65536) % 65536, value % 65536]
  | _ => [value]

/-- Modelled from the spec: the write path of the descriptor-based client,
which is not under src/ (registers2.py declares the descriptors' access
modes; the spec, sections 4.2, 6 and 7, fixes the behaviour): a write to a
descriptor whose access is read-only is rejected with `AccessDenied` before
any wire traffic is issued; otherwise the encoded words are issued as one
wire request (a single multi-word transaction for two-word encodings). -/
def writeDesc (d : RegisterDesc) (value : Int) : Except ModelError WireWrite :=
  match d.access with
  | .READ_ONLY => .error .accessDenied
  | .READ_WRITE =>
      match encodeValue d.datatype value with
      | [w] => .ok (.single (d.address - 1) w)
      | ws => .ok (.multi (d.address - 1) ws)

/-! ## Poll cycle

Embeds `KomfoventCoordinator` (coordinator.py).  A poll cycle issues a
sequence of register reads; the transport is abstracted as an oracle
`fetch : Nat → Except ModelError Int` giving, per register address, either
the decoded value or the raised error (`ConnectionError`/`ModbusException`).
Register identities are their catalog addresses.  The `Register.sublist`
method of the rich register enum used by the coordinator is not under src/;
it is modelled from the spec (section 4.4: ranges are contiguous address
blocks `(start_address, count)`). -/

/-- Embeds `Controller` (const.py lines 40-47). -/
inductive Controller : Type
  | C4 : Controller
  | C6 : Controller
  | C6M : Controller
  | C8 : Controller
  | NA : Controller
deriving DecidableEq, Repr

/-- Embeds `FUNC_VER_AQ_HUMIDITY` (coordinator.py line 28). -/
def FUNC_VER_AQ_HUMIDITY : Nat := 38

/-- Embeds `FUNC_VER_EXHAUST_TEMP` (coordinator.py line 29). -/
def FUNC_VER_EXHAUST_TEMP : Nat := 67

/-- Modelled from the spec: `Register.sublist(count)` yields the contiguous
block of `count` register addresses starting at this register's address. -/
def sublist (start count : Nat) : List Nat :=
  (List.range count).map (start + ·)

/-- The version gate of coordinator.py lines 122-125 and 138-141:
`self.controller in {Controller.C6, Controller.C6M} and
self.func_version < FUNC_VER_AQ_HUMIDITY`. -/
def aqLegacyGate (ctrl : Controller) (fv : Nat) : Bool :=
  decide (ctrl = Controller.C6 ∨ ctrl = Controller.C6M) &&
    decide (fv < FUNC_VER_AQ_HUMIDITY)

/-- The gate of coordinator.py lines 153-156: exhaust temperature is read
only for C6/C6M at or above `FUNC_VER_EXHAUST_TEMP`. -/
def exhaustGate (ctrl : Controller) (fv : Nat) : Bool :=
  decide (ctrl = Controller.C6 ∨ ctrl = Controller.C6M) &&
    decide (FUNC_VER_EXHAUST_TEMP ≤ fv)

/-- Embeds the mandatory register ranges of `_async_update_data_C6`
(coordinator.py lines 110-144): primary control 1-34, modes 100-158, eco and
air quality 200-214 or 200-217 (version-gated), active alarms 600-610,
monitoring 900-955 or 900-957 (version-gated). -/
def mandatoryRegsC6 (ctrl : Controller) (fv : Nat) : List Nat :=
  sublist REG_POWER 34 ++
  sublist REG_AWAY_FAN_SUPPLY 59 ++
  (if aqLegacyGate ctrl fv then sublist REG_ECO_MIN_TEMP 15
   else sublist REG_ECO_MIN_TEMP 18) ++
  sublist REG_ACTIVE_ALARMS_COUNT 11 ++
  (if aqLegacyGate ctrl fv then sublist REG_STATUS 56
   else sublist REG_STATUS 58)

/-- Embeds the register ranges of `_async_update_data_C4` (coordinator.py
lines 93-100): `POWER.sublist(13)`, `VENTILATION_LEVEL_MANUAL.sublist(2)`,
`MODE.sublist(1)`, at the `C4_Registers` addresses 1000, 1100 and 1102. -/
def mandatoryRegsC4 : List Nat :=
  sublist 1000 13 ++ sublist 1100 2 ++ sublist 1102 1

/-- The register addresses a poll cycle reads unconditionally, whose failure
aborts the cycle. -/
def mandatoryRegs (ctrl : Controller) (fv : Nat) : List Nat :=
  if ctrl = Controller.C4 then mandatoryRegsC4 else mandatoryRegsC6 ctrl fv

/-- Embeds the unguarded read loops of `_async_update_data_C4` and
`_async_update_data_C6`: read each register in turn into the dictionary; the
first raised error propagates. -/
def readAll (fetch : Nat → Except ModelError Int) :
    List Nat → List (Nat × Int) → Except ModelError (List (Nat × Int))
  | [], d => .ok d
  | r :: rs, d =>
      match fetch r with
      | .error e => .error e
      | .ok v => readAll fetch rs (dinsert d r v)

/-- Embeds a `try: data.update(...) except (ConnectionError, ModbusException)`
block of `_async_update_data_C6`: a failed optional read is logged and the
key is simply absent. -/
def tryRead (fetch : Nat → Except ModelError Int) (d : List (Nat × Int))
    (r : Nat) : List (Nat × Int) :=
  match fetch r with
  | .ok v => dinsert d r v
  | .error _ => d

/-- Embeds the panel-1 gate (coordinator.py lines 169-172):
`data.get(REG_CONNECTED_PANELS, 0) in [ConnectedPanels.PANEL1,
ConnectedPanels.BOTH]`, with `PANEL1 = 1` and `BOTH = 3` (const.py). -/
def panel1Gate (d : List (Nat × Int)) : Bool :=
  dgetD d REG_CONNECTED_PANELS 0 == 1 || dgetD d REG_CONNECTED_PANELS 0 == 3

/-- Embeds the panel-2 gate (coordinator.py lines 181-184), with
`PANEL2 = 2` and `BOTH = 3` (const.py). -/
def panel2Gate (d : List (Nat × Int)) : Bool :=
  dgetD d REG_CONNECTED_PANELS 0 == 2 || dgetD d REG_CONNECTED_PANELS 0 == 3

/-- Embeds coordinator.py lines 152-161: the guarded best-effort read of the
exhaust temperature. -/
def exhaustPhase (ctrl : Controller) (fv : Nat)
    (fetch : Nat → Except ModelError Int) (d : List (Nat × Int)) :
    List (Nat × Int) :=
  if exhaustGate ctrl fv then tryRead fetch d REG_EXHAUST_TEMP else d

/-- Embeds coordinator.py lines 162-166: the best-effort read of the
controller firmware version. -/
def firmwarePhase (fetch : Nat → Except ModelError Int)
    (d : List (Nat × Int)) : List (Nat × Int) :=
  tryRead fetch d REG_FIRMWARE

/-- Embeds coordinator.py lines 168-178: the panel-gated best-effort read of
the panel-1 firmware version. -/
def panel1Phase (fetch : Nat → Except ModelError Int)
    (d : List (Nat × Int)) : List (Nat × Int) :=
  if panel1Gate d then tryRead fetch d REG_PANEL1_FW else d

/-- Embeds coordinator.py lines 180-190: the panel-gated best-effort read of
the panel-2 firmware version. -/
def panel2Phase (fetch : Nat → Except ModelError Int)
    (d : List (Nat × Int)) : List (Nat × Int) :=
  if panel2Gate d then tryRead fetch d REG_PANEL2_FW else d

/-- The optional trailing reads of `_async_update_data_C6` (coordinator.py
lines 152-190), in program order. -/
def optionalPhase (ctrl : Controller) (fv : Nat)
    (fetch : Nat → Except ModelError Int) (d : List (Nat × Int)) :
    List (Nat × Int) :=
  panel2Phase fetch (panel1Phase fetch (firmwarePhase fetch
    (exhaustPhase ctrl fv fetch d)))

/-- Embeds `_async_update_data_C6` (coordinator.py lines 104-192): read the
mandatory ranges (any failure propagates), then best-effort read the
version-gated exhaust temperature, the firmware version, and the
panel-gated panel firmware versions. -/
def updateDataC6 (ctrl : Controller) (fv : Nat)
    (fetch : Nat → Except ModelError Int) :
    Except ModelError (List (Nat × Int)) :=
  match readAll fetch (mandatoryRegsC6 ctrl fv) [] with
  | .error e => .error e
  | .ok d => .ok (optionalPhase ctrl fv fetch d)

/-- Embeds `_async_update_data_C4` (coordinator.py lines 88-102): every read
is unguarded, there are no optional trailing reads. -/
def updateDataC4 (fetch : Nat → Except ModelError Int) :
    Except ModelError (List (Nat × Int)) :=
  readAll fetch mandatoryRegsC4 []

/-- Embeds `_async_update_data` (coordinator.py lines 194-209): dispatch on
the controller family; any `ConnectionError`/`ModbusException` escaping the
cycle is reported upward as `UpdateFailed`. -/
def updateData (ctrl : Controller) (fv : Nat)
    (fetch : Nat → Except ModelError Int) :
    Except ModelError (List (Nat × Int)) :=
  match (if ctrl = Controller.C4 then updateDataC4 fetch
         else updateDataC6 ctrl fv fetch) with
  | .ok d => .ok d
  | .error _ => .error .updateFailed

/-- The value the oracle reports for a register, defaulting to 0; meaningful
only where `fetch r` succeeds. -/
def fetchVal (fetch : Nat → Except ModelError Int) (r : Nat) : Int :=
  match fetch r with
  | .ok v => v
  | .error _ => 0

/-- The panel-1 gate expressed on the oracle: the decoded connected-panels
word (read as part of the mandatory monitoring range) is `PANEL1` or
`BOTH`. -/
def cp1Gate (fetch : Nat → Except ModelError Int) : Bool :=
  fetchVal fetch REG_CONNECTED_PANELS == 1 ||
    fetchVal fetch REG_CONNECTED_PANELS == 3

/-- The panel-2 gate expressed on the oracle: the decoded connected-panels
word is `PANEL2` or `BOTH`. -/
def cp2Gate (fetch : Nat → Except ModelError Int) : Bool :=
  fetchVal fetch REG_CONNECTED_PANELS == 2 ||
    fetchVal fetch REG_CONNECTED_PANELS == 3

/-- The optional trailing registers a C6-family cycle attempts to read,
given the oracle: the exhaust temperature when version-gated in, the
firmware version always, and each panel firmware version when the
connected-panels word gates it in. -/
def optionalRegsC6 (ctrl : Controller) (fv : Nat)
    (fetch : Nat → Except ModelError Int) : List Nat :=
  (if exhaustGate ctrl fv then [REG_EXHAUST_TEMP] else []) ++
  [REG_FIRMWARE] ++
  (if cp1Gate fetch then [REG_PANEL1_FW] else []) ++
  (if cp2Gate fetch then [REG_PANEL2_FW] else [])

/-- The optional trailing registers a cycle attempts to read; the C4 cycle
attempts none. -/
def optionalRegs (ctrl : Controller) (fv : Nat)
    (fetch : Nat → Except ModelError Int) : List Nat :=
  if ctrl = Controller.C4 then [] else optionalRegsC6 ctrl fv fetch

/-! ## Catalog facts -/

/-- Registers classified as signed 16-bit are not also classified as
unsigned 16-bit, so the decode and write branch order is immaterial. -/
theorem signed_not_unsigned : ∀ r ∈ REGISTERS_16BIT_SIGNED,
    r ∉ REGISTERS_16BIT_UNSIGNED := by decide

/-- Registers classified as 32-bit are in neither 16-bit set. -/
theorem u32_not_16 : ∀ r ∈ REGISTERS_32BIT_UNSIGNED,
    r ∉ REGISTERS_16BIT_UNSIGNED ∧ r ∉ REGISTERS_16BIT_SIGNED := by decide

/-! ## Dictionary lemmas -/

theorem dinsert_cons_eq {α : Type} (rest : List (Nat × α)) (k0 : Nat) (v0 v : α) :
    dinsert ((k0, v0) :: rest) k0 v = (k0, v) :: rest := by
  simp [dinsert]

theorem dinsert_cons_ne {α : Type} (rest : List (Nat × α)) (k0 k' : Nat)
    (v0 v : α) (h : ¬k0 = k') :
    dinsert ((k0, v0) :: rest) k' v = (k0, v0) :: dinsert rest k' v := by
  simp [dinsert, h]

theorem mem_dkeys_dinsert {α : Type} (d : List (Nat × α)) (k k' : Nat) (v : α) :
    k ∈ dkeys (dinsert d k' v) ↔ k = k' ∨ k ∈ dkeys d := by
  induction d with
  | nil => simp [dinsert, dkeys]
  | cons p rest ih =>
      obtain ⟨k0, v0⟩ := p
      by_cases h : k0 = k'
      · subst h
        rw [dinsert_cons_eq]
        simp only [dkeys, List.map_cons, List.mem_cons]
        tauto
      · rw [dinsert_cons_ne rest k0 k' v0 v h]
        simp only [dkeys, List.map_cons, List.mem_cons]
        rw [show (dinsert rest k' v).map Prod.fst = dkeys (dinsert rest k' v) from rfl,
            ih]
        simp only [dkeys]
        tauto

theorem alookup_dinsert_self {α : Type} (d : List (Nat × α)) (k : Nat) (v : α) :
    alookup (dinsert d k v) k = some v := by
  induction d with
  | nil => simp [dinsert, alookup]
  | cons p rest ih =>
      obtain ⟨k0, v0⟩ := p
      by_cases h : k0 = k
      · subst h
        rw [dinsert_cons_eq]
        simp [alookup]
      · rw [dinsert_cons_ne rest k0 k v0 v h]
        simp [alookup, h, ih]

theorem alookup_dinsert_ne {α : Type} (d : List (Nat × α)) (k k' : Nat) (v : α)
    (h : k ≠ k') :
    alookup (dinsert d k' v) k = alookup d k := by
  induction d with
  | nil =>
      have h' : ¬(k' = k) := fun hh => h hh.symm
      simp [dinsert, alookup, h']
  | cons p rest ih =>
      obtain ⟨k0, v0⟩ := p
      by_cases h0 : k0 = k'
      · subst h0
        have h' : ¬(k0 = k) := fun hh => h hh.symm
        rw [dinsert_cons_eq]
        simp [alookup, h']
      · rw [dinsert_cons_ne rest k0 k' v0 v h0]
        by_cases hk : k0 = k <;> simp [alookup, hk, ih]

/-! ## Range and block lemmas -/

theorem mem_sublist (s n a : Nat) : a ∈ sublist s n ↔ s ≤ a ∧ a < s + n := by
  simp only [sublist, List.mem_map, List.mem_range]
  constructor
  · rintro ⟨i, hi, rfl⟩
    omega
  · intro h
    exact ⟨a - s, by omega, by omega⟩

theorem mem_keys_enumFrom (ws : List Nat) (start k : Nat) :
    k ∈ (enumFrom start ws).map Prod.fst ↔ start ≤ k ∧ k < start + ws.length := by
  induction ws generalizing start with
  | nil => simp [enumFrom]
  | cons w rest ih =>
      simp only [enumFrom, List.map_cons, List.mem_cons, ih, List.length_cons]
      omega

theorem fst_le_of_mem_enumFrom (ws : List Nat) (start : Nat) :
    ∀ p ∈ enumFrom start ws, start ≤ p.1 := by
  intro p hp
  have : p.1 ∈ (enumFrom start ws).map Prod.fst := List.mem_map_of_mem _ hp
  exact ((mem_keys_enumFrom ws start p.1).1 this).1

/-! ## Read-loop lemmas -/

theorem readAll_fail (fetch : Nat → Except ModelError Int) (rs : List Nat) :
    ∀ d, (∃ r ∈ rs, isFail (fetch r) = true) →
      isFail (readAll fetch rs d) = true := by
  induction rs with
  | nil => rintro d ⟨r, hr, _⟩; cases hr
  | cons r rest ih =>
      rintro d ⟨r', hr', hfail⟩
      rcases List.mem_cons.1 hr' with rfl | hmem
      · cases hf : fetch r' with
        | error e => simp [readAll, hf, isFail]
        | ok v => rw [hf] at hfail; cases hfail
      · cases hf : fetch r with
        | error e => simp [readAll, hf, isFail]
        | ok v =>
            simp only [readAll, hf]
            exact ih _ ⟨r', hmem, hfail⟩

theorem readAll_ok (fetch : Nat → Except ModelError Int) (rs : List Nat) :
    ∀ d, (∀ r ∈ rs, isOk (fetch r) = true) →
      ∃ d', readAll fetch rs d = .ok d'
        ∧ (∀ k, k ∈ dkeys d' ↔ k ∈ rs ∨ k ∈ dkeys d)
        ∧ (∀ k, k ∉ rs → alookup d' k = alookup d k)
        ∧ (∀ k ∈ rs, alookup d' k = some (fetchVal fetch k)) := by
  induction rs with
  | nil =>
      intro d _
      exact ⟨d, rfl, by simp, fun k _ => rfl, by simp⟩
  | cons r rest ih =>
      intro d hok
      cases hf : fetch r with
      | error e =>
          have := hok r (List.mem_cons_self r rest)
          rw [hf] at this
          cases this
      | ok v =>
          obtain ⟨d', hrun, hkeys, hout, hin⟩ :=
            ih (dinsert d r v) (fun x hx => hok x (List.mem_cons_of_mem r hx))
          refine ⟨d', by simp [readAll, hf, hrun], ?_, ?_, ?_⟩
          · intro k
            rw [hkeys k, mem_dkeys_dinsert]
            simp only [List.mem_cons]
            tauto
          · intro k hk
            rw [hout k (fun h => hk (List.mem_cons_of_mem r h)),
                alookup_dinsert_ne d k r v (fun h => hk (h ▸ List.mem_cons_self r rest))]
          · intro k hk
            rcases List.mem_cons.1 hk with rfl | hmem
            · by_cases hkr : k ∈ rest
              · exact hin k hkr
              · rw [hout k hkr, alookup_dinsert_self, fetchVal, hf]
            · exact hin k hmem

/-! ## Optional-read lemmas -/

theorem mem_dkeys_tryRead (fetch : Nat → Except ModelError Int)
    (d : List (Nat × Int)) (r k : Nat) :
    k ∈ dkeys (tryRead fetch d r) ↔
      (k = r ∧ isOk (fetch r) = true) ∨ k ∈ dkeys d := by
  cases hf : fetch r with
  | error e => simp [tryRead, hf, isOk]
  | ok v => simp [tryRead, hf, isOk, mem_dkeys_dinsert]

theorem alookup_tryRead_ne (fetch : Nat → Except ModelError Int)
    (d : List (Nat × Int)) (r k : Nat) (h : k ≠ r) :
    alookup (tryRead fetch d r) k = alookup d k := by
  cases hf : fetch r with
  | error e => simp [tryRead, hf]
  | ok v => simp [tryRead, hf, alookup_dinsert_ne d k r v h]

/-! ## Claim theorems: wire codec -/

/-- C3: for every raw word in [0, 65535] classified as int16, `decode`
yields `raw - ((raw >> 15) << 16)`, which equals `raw - 65536` exactly when
`raw ≥ 32768`; in particular the conversion maps `0x8000` to `-32768` and
`0xFFFF` to `-1`.  The first conjunct ties the rule to the program's read
path: a one-word read of a signed register decodes the word with this rule. -/
theorem int16_decode_rule (raw reg : Nat) (hraw : raw ≤ 65535)
    (hreg : reg ∈ REGISTERS_16BIT_SIGNED) :
    readDecode reg [raw] = .ok [(reg, toInt16 raw)]
    ∧ toInt16 raw = (raw : Int) - (((raw >>> 15) <<< 16 : Nat) : Int)
    ∧ (toInt16 raw = (raw : Int) - 65536 ↔ 32768 ≤ raw)
    ∧ toInt16 0x8000 = -32768
    ∧ toInt16 0xFFFF = -1 := by
  have hnu : reg ∉ REGISTERS_16BIT_UNSIGNED := signed_not_unsigned reg hreg
  refine ⟨?_, rfl, ?_, by decide, by decide⟩
  · simp [readDecode, enumFrom, decodeLoop, decodeStep, hnu, hreg, dinsert,
      notConvertedOf]
  · rw [toInt16, Nat.shiftRight_eq_div_pow, Nat.shiftLeft_eq]
    have h15 : (2 : Nat) ^ 15 = 32768 := by norm_num
    have h16 : (2 : Nat) ^ 16 = 65536 := by norm_num
    rw [h15, h16]
    omega

/-- Witness for C3 at the raw word 40000 and the supply-temperature
register 902. -/
theorem int16_decode_rule_witness :
    readDecode 902 [40000] = .ok [(902, toInt16 40000)]
    ∧ toInt16 40000 = (40000 : Int) - (((40000 >>> 15) <<< 16 : Nat) : Int)
    ∧ (toInt16 40000 = (40000 : Int) - 65536 ↔ 32768 ≤ 40000)
    ∧ toInt16 0x8000 = -32768
    ∧ toInt16 0xFFFF = -1 :=
  int16_decode_rule 40000 902 (by decide) (by decide)

/-- C4: for every semantic value in [-32768, 32767] written to a 16-bit
signed register, the encoding `value & 0xFFFF` (one wire word, here
`value % 65536`) composed with the int16 decode rule returns the original
value. -/
theorem int16_roundtrip (v : Int) (reg : Nat)
    (h1 : -32768 ≤ v) (h2 : v ≤ 32767)
    (hreg : reg ∈ REGISTERS_16BIT_SIGNED) :
    write reg v = .ok (.single (reg - 1) (v % 65536))
    ∧ ((encodeInt16 v : Nat) : Int) = v % 65536
    ∧ toInt16 (encodeInt16 v) = v := by
  have hnu : reg ∉ REGISTERS_16BIT_UNSIGNED := signed_not_unsigned reg hreg
  refine ⟨by simp [write, hnu, hreg], ?_, ?_⟩
  · rw [encodeInt16]
    omega
  · rw [toInt16, encodeInt16, Nat.shiftRight_eq_div_pow, Nat.shiftLeft_eq]
    have h15 : (2 : Nat) ^ 15 = 32768 := by norm_num
    have h16 : (2 : Nat) ^ 16 = 65536 := by norm_num
    rw [h15, h16]
    omega

/-- Witness for C4 at value -5 and the away-setpoint register 104. -/
theorem int16_roundtrip_witness :
    write 104 (-5) = .ok (.single 103 ((-5 : Int) % 65536))
    ∧ ((encodeInt16 (-5) : Nat) : Int) = (-5 : Int) % 65536
    ∧ toInt16 (encodeInt16 (-5)) = -5 :=
  int16_roundtrip (-5) 104 (by decide) (by decide) (by decide)

/-- C5: for every semantic value in [0, 2^32-1] written to a 32-bit
unsigned register, the encoding is exactly two 16-bit words with the high
word first, issued as a single multi-word wire write, and the uint32 decode
rule applied to those two words returns the original value.  Lean `/` and
`%` on `Int` are floor division and non-negative remainder for the positive
divisor 65536, exactly Python `>> 16` and `& 0xFFFF`. -/
theorem uint32_roundtrip (reg : Nat) (v : Int)
    (hreg : reg ∈ REGISTERS_32BIT_UNSIGNED) (h0 : 0 ≤ v)
    (h1 : v < 4294967296) :
    write reg v = .ok (.multi (reg - 1) [(v / 65536) % 65536, v % 65536])
    ∧ ([(v / 65536) % 65536, v % 65536] : List Int).length = 2
    ∧ ((decodeUint32 ((v / 65536) % 65536).toNat (v % 65536).toNat : Nat) : Int)
        = v := by
  obtain ⟨hn1, hn2⟩ := u32_not_16 reg hreg
  refine ⟨by simp [write, hn1, hn2, hreg], rfl, ?_⟩
  rw [decodeUint32, Nat.shiftLeft_eq]
  have h16 : (2 : Nat) ^ 16 = 65536 := by norm_num
  rw [h16]
  omega

/-- Witness for C5 at the maximum-supply-flow register 13 and the value
0x12345678. -/
theorem uint32_roundtrip_witness :
    write 13 305419896 =
      .ok (.multi 12 [((305419896 : Int) / 65536) % 65536, (305419896 : Int) % 65536])
    ∧ ([((305419896 : Int) / 65536) % 65536, (305419896 : Int) % 65536] : List Int).length = 2
    ∧ ((decodeUint32 (((305419896 : Int) / 65536) % 65536).toNat
          ((305419896 : Int) % 65536).toNat : Nat) : Int) = 305419896 :=
  uint32_roundtrip 13 305419896 (by decide) (by decide) (by decide)

/-! ## Claim theorems: access control -/

/-- C6: every write to a register whose descriptor has read-only access
fails with `AccessDenied`, and the failure is emitted before any wire
traffic: the outcome carries no wire request. -/
theorem readonly_write_denied (d : RegisterDesc) (v : Int)
    (h : d.access = .READ_ONLY) :
    writeDesc d v = .error .accessDenied ∧ wireOf (writeDesc d v) = [] := by
  have e : writeDesc d v = .error .accessDenied := by
    rw [writeDesc, h]
  exact ⟨e, by rw [e]; rfl⟩

/-- Witness for C6 at the read-only `MONTH_DAY` descriptor of the C4
catalog (address 1004) and the value 5. -/
theorem readonly_write_denied_witness :
    (⟨1004, .uint16, .READ_ONLY⟩ : RegisterDesc) ∈ C4_Registers
    ∧ writeDesc ⟨1004, .uint16, .READ_ONLY⟩ 5 = .error .accessDenied
    ∧ wireOf (writeDesc ⟨1004, .uint16, .READ_ONLY⟩ 5) = [] :=
  ⟨by decide, (readonly_write_denied ⟨1004, .uint16, .READ_ONLY⟩ 5 rfl).1,
    (readonly_write_denied ⟨1004, .uint16, .READ_ONLY⟩ 5 rfl).2⟩

/-! ## Claim theorems: catalog invariant -/

/-- C8 counterexample: the 32-bit BACnet-ID register at address 38 is
immediately followed by the independently-addressable room-sensor register
at address 39, which is a member of the 16-bit unsigned classification set,
so the claimed invariant fails at this pair. -/
theorem u32_low_word_counterexample :
    REG_BACNET_ID ∈ REGISTERS_32BIT_UNSIGNED
    ∧ REG_BACNET_ID + 1 = REG_ROOM_SENSOR
    ∧ REG_ROOM_SENSOR ∈ REGISTERS_16BIT_UNSIGNED := by decide

/-- C8 amended: for every register classified as 32-bit other than the
BACnet-ID register (address 38), the next address is a member of none of
the three classification sets. -/
theorem u32_low_word_free : ∀ r ∈ REGISTERS_32BIT_UNSIGNED,
    r ≠ REG_BACNET_ID →
      r + 1 ∉ REGISTERS_16BIT_UNSIGNED
      ∧ r + 1 ∉ REGISTERS_16BIT_SIGNED
      ∧ r + 1 ∉ REGISTERS_32BIT_UNSIGNED := by decide

/-- Witness for the amended C8 at the maximum-supply-flow register 13. -/
theorem u32_low_word_free_witness :
    13 + 1 ∉ REGISTERS_16BIT_UNSIGNED
    ∧ 13 + 1 ∉ REGISTERS_16BIT_SIGNED
    ∧ 13 + 1 ∉ REGISTERS_32BIT_UNSIGNED :=
  u32_low_word_free 13 (by decide) (by decide)

/-! ## Decode-loop structure lemmas -/

/-- A successful decode step either leaves the state unchanged (the address
is in no classification set) or inserts the address into the data and marks
it converted, additionally marking the following address for a 32-bit
register. -/
theorem decodeStep_ok_cases (block : List (Nat × Nat)) (st : DecodeState)
    (reg value : Nat) (st' : DecodeState)
    (h : decodeStep block st reg value = .ok st') :
    (st' = st ∧ reg ∉ REGISTERS_16BIT_UNSIGNED ∧ reg ∉ REGISTERS_16BIT_SIGNED
      ∧ reg ∉ REGISTERS_32BIT_UNSIGNED)
    ∨ (∃ v, st'.data = dinsert st.data reg v ∧
        ((st'.converted = reg :: st.converted
            ∧ (reg ∈ REGISTERS_16BIT_UNSIGNED ∨ reg ∈ REGISTERS_16BIT_SIGNED))
         ∨ (st'.converted = (reg + 1) :: reg :: st.converted
            ∧ reg ∈ REGISTERS_32BIT_UNSIGNED))) := by
  rw [decodeStep] at h
  split_ifs at h with h1 h2 h3
  · cases h
    exact Or.inr ⟨(value : Int), rfl, Or.inl ⟨rfl, Or.inl h1⟩⟩
  · cases h
    exact Or.inr ⟨toInt16 value, rfl, Or.inl ⟨rfl, Or.inr h2⟩⟩
  · cases hlk : alookup block (reg + 1) with
    | none => rw [hlk] at h; cases h
    | some low =>
        rw [hlk] at h
        cases h
        exact Or.inr ⟨((decodeUint32 value low : Nat) : Int), rfl,
          Or.inr ⟨rfl, h3⟩⟩
  · cases h
    exact Or.inl ⟨rfl, h1, h2, h3⟩

/-- An address in no classification set, and not immediately following an
iterated 32-bit address, never enters the converted set. -/
theorem decodeLoop_not_converted (block : List (Nat × Nat)) (a : Nat)
    (hu : a ∉ REGISTERS_16BIT_UNSIGNED) (hs : a ∉ REGISTERS_16BIT_SIGNED)
    (hd : a ∉ REGISTERS_32BIT_UNSIGNED) :
    ∀ (l : List (Nat × Nat)) (st st' : DecodeState),
      (∀ p ∈ l, p.1 ∈ REGISTERS_32BIT_UNSIGNED → p.1 + 1 ≠ a) →
      a ∉ st.converted →
      decodeLoop block l st = .ok st' → a ∉ st'.converted := by
  intro l
  induction l with
  | nil =>
      intro st st' _ hna h
      cases h
      exact hna
  | cons p rest ih =>
      intro st st' hlast hna h
      obtain ⟨reg, value⟩ := p
      rw [decodeLoop] at h
      cases hstep : decodeStep block st reg value with
      | error e => rw [hstep] at h; cases h
      | ok st1 =>
          rw [hstep] at h
          refine ih st1 st' (fun q hq => hlast q (List.mem_cons_of_mem (reg, value) hq)) ?_ h
          rcases decodeStep_ok_cases block st reg value st1 hstep with
            ⟨rfl, _, _, _⟩ | ⟨v, _, hconv | hconv⟩
          · exact hna
          · rw [hconv.1]
            intro hmem
            rcases List.mem_cons.1 hmem with rfl | hmem'
            · rcases hconv.2 with hin | hin
              · exact hu hin
              · exact hs hin
            · exact hna hmem'
          · rw [hconv.1]
            intro hmem
            rcases List.mem_cons.1 hmem with heq | hmem'
            · exact hlast (reg, value) (List.mem_cons_self _ _) hconv.2 heq.symm
            · rcases List.mem_cons.1 hmem' with rfl | hmem''
              · exact hd hconv.2
              · exact hna hmem''

/-- Invariants of the decode loop: every data key comes from the block, and
every converted address is either a data key or the successor of a 32-bit
data key. -/
theorem decodeLoop_invariant (block : List (Nat × Nat)) :
    ∀ (l : List (Nat × Nat)) (st st' : DecodeState),
      (∀ p ∈ l, p.1 ∈ block.map Prod.fst) →
      (∀ k ∈ dkeys st.data, k ∈ block.map Prod.fst) →
      (∀ c ∈ st.converted, c ∈ dkeys st.data
        ∨ ∃ k, k ∈ dkeys st.data ∧ k ∈ REGISTERS_32BIT_UNSIGNED ∧ c = k + 1) →
      decodeLoop block l st = .ok st' →
      (∀ k ∈ dkeys st'.data, k ∈ block.map Prod.fst)
      ∧ (∀ c ∈ st'.converted, c ∈ dkeys st'.data
          ∨ ∃ k, k ∈ dkeys st'.data ∧ k ∈ REGISTERS_32BIT_UNSIGNED ∧ c = k + 1) := by
  intro l
  induction l with
  | nil =>
      intro st st' _ hinv1 hinv2 h
      cases h
      exact ⟨hinv1, hinv2⟩
  | cons p rest ih =>
      intro st st' hl hinv1 hinv2 h
      obtain ⟨reg, value⟩ := p
      rw [decodeLoop] at h
      cases hstep : decodeStep block st reg value with
      | error e => rw [hstep] at h; cases h
      | ok st1 =>
          rw [hstep] at h
          refine ih st1 st' (fun q hq => hl q (List.mem_cons_of_mem _ hq)) ?_ ?_ h
          · rcases decodeStep_ok_cases block st reg value st1 hstep with
              ⟨rfl, _, _, _⟩ | ⟨v, hdata, _⟩
            · exact hinv1
            · intro k hk
              rw [hdata] at hk
              rcases (mem_dkeys_dinsert st.data k reg v).1 hk with rfl | hk'
              · exact hl (k, value) (List.mem_cons_self _ _)
              · exact hinv1 k hk'
          · rcases decodeStep_ok_cases block st reg value st1 hstep with
              ⟨rfl, _, _, _⟩ | ⟨v, hdata, hconv | hconv⟩
            · exact hinv2
            · intro c hc
              rw [hconv.1] at hc
              rw [hdata]
              rcases List.mem_cons.1 hc with rfl | hc'
              · exact Or.inl ((mem_dkeys_dinsert st.data c c v).2 (Or.inl rfl))
              · rcases hinv2 c hc' with hmem | ⟨k, hk1, hk2, hk3⟩
                · exact Or.inl ((mem_dkeys_dinsert st.data c reg v).2 (Or.inr hmem))
                · exact Or.inr ⟨k, (mem_dkeys_dinsert st.data k reg v).2 (Or.inr hk1),
                    hk2, hk3⟩
            · intro c hc
              rw [hconv.1] at hc
              rw [hdata]
              rcases List.mem_cons.1 hc with rfl | hc'
              · exact Or.inr ⟨reg, (mem_dkeys_dinsert st.data reg reg v).2 (Or.inl rfl),
                  hconv.2, rfl⟩
              · rcases List.mem_cons.1 hc' with rfl | hc''
                · exact Or.inl ((mem_dkeys_dinsert st.data c c v).2 (Or.inl rfl))
                · rcases hinv2 c hc'' with hmem | ⟨k, hk1, hk2, hk3⟩
                  · exact Or.inl ((mem_dkeys_dinsert st.data c reg v).2 (Or.inr hmem))
                  · exact Or.inr ⟨k, (mem_dkeys_dinsert st.data k reg v).2 (Or.inr hk1),
                      hk2, hk3⟩

/-! ## Claim theorems: decode fault and range coverage -/

/-- C7 counterexample: address 14 lies in the successfully-read range
starting at 13 and is absent from all three classification sets, yet the
read does not raise: it is consumed as the low word of the 32-bit register
13, so the claim as stated fails. -/
theorem decode_fault_counterexample :
    (13 ≤ 14 ∧ 14 < 13 + ([0, 5] : List Nat).length)
    ∧ 14 ∉ REGISTERS_16BIT_UNSIGNED
    ∧ 14 ∉ REGISTERS_16BIT_SIGNED
    ∧ 14 ∉ REGISTERS_32BIT_UNSIGNED
    ∧ readDecode 13 [0, 5] = .ok [(13, 5)] := by decide

/-- C7 amended: if some address in a fetched range is absent from all three
classification sets and is not the successor of a 32-bit-classified address
of the range, the read raises; it never silently skips the address or
returns zero/None for it. -/
theorem decode_fault_unclassified (register : Nat) (words : List Nat)
    (a : Nat) (h1 : register ≤ a) (h2 : a < register + words.length)
    (hu : a ∉ REGISTERS_16BIT_UNSIGNED) (hs : a ∉ REGISTERS_16BIT_SIGNED)
    (hd : a ∉ REGISTERS_32BIT_UNSIGNED)
    (hlow : ∀ r, register ≤ r → r + 1 = a → r ∉ REGISTERS_32BIT_UNSIGNED) :
    isFail (readDecode register words) = true := by
  rw [readDecode]
  split
  · rfl
  · rename_i st hloop
    have hblock : a ∈ (enumFrom register words).map Prod.fst :=
      (mem_keys_enumFrom words register a).2 ⟨h1, h2⟩
    have hnc : a ∉ st.converted := by
      refine decodeLoop_not_converted (enumFrom register words) a hu hs hd
        (enumFrom register words) ⟨[], []⟩ st ?_ (by simp) hloop
      intro p hp h32 heq
      exact hlow p.1 (fst_le_of_mem_enumFrom words register p hp) heq h32
    have hmem : a ∈ notConvertedOf (enumFrom register words) st := by
      rw [notConvertedOf]
      exact List.mem_filter.2 ⟨hblock, by simpa using hnc⟩
    split
    · rename_i hncs
      rw [hncs] at hmem
      cases hmem
    · rfl

/-- Witness for the amended C7: a one-word read at the unclassified
address 45 fails. -/
theorem decode_fault_unclassified_witness :
    isFail (readDecode 45 [0]) = true :=
  decode_fault_unclassified 45 [0] 45 (by decide) (by decide) (by decide)
    (by decide) (by decide)
    (fun r hr h45 => absurd h45 (by omega))

/-- C10: whenever a read of a range returns successfully, every address of
the range appears either as a key of the returned mapping or as the
implicitly-consumed low word of a 32-bit key of the mapping, and no key
outside the requested range appears. -/
theorem read_range_accounted (register : Nat) (words : List Nat)
    (d : List (Nat × Int)) (h : readDecode register words = .ok d) :
    (∀ a, register ≤ a → a < register + words.length →
        a ∈ dkeys d
        ∨ ∃ k, k ∈ dkeys d ∧ k ∈ REGISTERS_32BIT_UNSIGNED ∧ a = k + 1)
    ∧ (∀ k ∈ dkeys d, register ≤ k ∧ k < register + words.length) := by
  rw [readDecode] at h
  split at h
  · cases h
  · rename_i st hloop
    split at h
    · rename_i hncs
      injection h with hsd
      subst hsd
      obtain ⟨hinv1, hinv2⟩ :=
        decodeLoop_invariant (enumFrom register words)
          (enumFrom register words) ⟨[], []⟩ st
          (fun p hp => List.mem_map_of_mem Prod.fst hp)
          (by simp [dkeys]) (by simp) hloop
      constructor
      · intro a ha1 ha2
        have hblock : a ∈ (enumFrom register words).map Prod.fst :=
          (mem_keys_enumFrom words register a).2 ⟨ha1, ha2⟩
        have hconv : a ∈ st.converted := by
          by_contra hac
          have : a ∈ notConvertedOf (enumFrom register words) st := by
            rw [notConvertedOf]
            exact List.mem_filter.2 ⟨hblock, by simpa using hac⟩
          rw [hncs] at this
          cases this
        exact hinv2 a hconv
      · intro k hk
        exact (mem_keys_enumFrom words register k).1 (hinv1 k hk)
    · cases h

/-- Witness for C10: a successful two-word read at the 32-bit register 13
accounts for both addresses 13 and 14, address 14 as the low word. -/
theorem read_range_accounted_witness :
    (∀ a, 13 ≤ a → a < 13 + ([0, 5] : List Nat).length →
        a ∈ dkeys [(13, (5 : Int))]
        ∨ ∃ k, k ∈ dkeys [(13, (5 : Int))] ∧ k ∈ REGISTERS_32BIT_UNSIGNED
            ∧ a = k + 1)
    ∧ (∀ k ∈ dkeys [(13, (5 : Int))], 13 ≤ k ∧ k < 13 + ([0, 5] : List Nat).length) :=
  read_range_accounted 13 [0, 5] [(13, 5)] (by rfl)

/-! ## Poll-plan lemmas -/

/-- The optional trailing registers never occur in the mandatory C6
ranges. -/
theorem optional_not_mandatoryC6 (ctrl : Controller) (fv a : Nat)
    (ha : a = REG_EXHAUST_TEMP ∨ a = REG_FIRMWARE ∨ a = REG_PANEL1_FW
      ∨ a = REG_PANEL2_FW) :
    a ∉ mandatoryRegsC6 ctrl fv := by
  intro hmem
  rcases ha with rfl | rfl | rfl | rfl <;>
    cases hg : aqLegacyGate ctrl fv <;>
      simp [mandatoryRegsC6, hg, mem_sublist, REG_POWER, REG_AWAY_FAN_SUPPLY,
        REG_ECO_MIN_TEMP, REG_ACTIVE_ALARMS_COUNT, REG_STATUS, REG_EXHAUST_TEMP,
        REG_FIRMWARE, REG_PANEL1_FW, REG_PANEL2_FW] at hmem

/-- The connected-panels register is part of the mandatory monitoring range
in both version-gated variants. -/
theorem connected_panels_mem_mandatoryC6 (ctrl : Controller) (fv : Nat) :
    REG_CONNECTED_PANELS ∈ mandatoryRegsC6 ctrl fv := by
  cases hg : aqLegacyGate ctrl fv <;>
    simp [mandatoryRegsC6, hg, mem_sublist, REG_POWER, REG_AWAY_FAN_SUPPLY,
      REG_ECO_MIN_TEMP, REG_ACTIVE_ALARMS_COUNT, REG_STATUS,
      REG_CONNECTED_PANELS]

/-- Membership in the attempted optional list, by gate. -/
theorem mem_optionalRegsC6 (ctrl : Controller) (fv : Nat)
    (fetch : Nat → Except ModelError Int) (k : Nat) :
    k ∈ optionalRegsC6 ctrl fv fetch ↔
      (exhaustGate ctrl fv = true ∧ k = REG_EXHAUST_TEMP)
      ∨ k = REG_FIRMWARE
      ∨ (cp1Gate fetch = true ∧ k = REG_PANEL1_FW)
      ∨ (cp2Gate fetch = true ∧ k = REG_PANEL2_FW) := by
  cases hE : exhaustGate ctrl fv <;> cases h1 : cp1Gate fetch <;>
    cases h2 : cp2Gate fetch <;>
      simp [optionalRegsC6, hE, h1, h2]

/-- The attempted optional registers are among the four trailing
registers. -/
theorem optionalRegsC6_sub (ctrl : Controller) (fv : Nat)
    (fetch : Nat → Except ModelError Int) :
    ∀ o ∈ optionalRegsC6 ctrl fv fetch,
      o = REG_EXHAUST_TEMP ∨ o = REG_FIRMWARE ∨ o = REG_PANEL1_FW
      ∨ o = REG_PANEL2_FW := by
  intro o ho
  rcases (mem_optionalRegsC6 ctrl fv fetch o).1 ho with ⟨_, rfl⟩ | rfl | ⟨_, rfl⟩ | ⟨_, rfl⟩
  · exact Or.inl rfl
  · exact Or.inr (Or.inl rfl)
  · exact Or.inr (Or.inr (Or.inl rfl))
  · exact Or.inr (Or.inr (Or.inr rfl))

/-! ## Optional-phase lemmas -/

theorem exhaustPhase_keys (ctrl : Controller) (fv : Nat)
    (fetch : Nat → Except ModelError Int) (d : List (Nat × Int)) (k : Nat) :
    k ∈ dkeys (exhaustPhase ctrl fv fetch d) ↔
      (exhaustGate ctrl fv = true ∧ k = REG_EXHAUST_TEMP
        ∧ isOk (fetch REG_EXHAUST_TEMP) = true)
      ∨ k ∈ dkeys d := by
  cases hE : exhaustGate ctrl fv <;>
    simp [exhaustPhase, hE, mem_dkeys_tryRead]

theorem exhaustPhase_lookup_ne (ctrl : Controller) (fv : Nat)
    (fetch : Nat → Except ModelError Int) (d : List (Nat × Int)) (k : Nat)
    (h : k ≠ REG_EXHAUST_TEMP) :
    alookup (exhaustPhase ctrl fv fetch d) k = alookup d k := by
  cases hE : exhaustGate ctrl fv <;>
    simp [exhaustPhase, hE, alookup_tryRead_ne fetch d REG_EXHAUST_TEMP k h]

theorem firmwarePhase_keys (fetch : Nat → Except ModelError Int)
    (d : List (Nat × Int)) (k : Nat) :
    k ∈ dkeys (firmwarePhase fetch d) ↔
      (k = REG_FIRMWARE ∧ isOk (fetch REG_FIRMWARE) = true) ∨ k ∈ dkeys d := by
  simp [firmwarePhase, mem_dkeys_tryRead]

theorem firmwarePhase_lookup_ne (fetch : Nat → Except ModelError Int)
    (d : List (Nat × Int)) (k : Nat) (h : k ≠ REG_FIRMWARE) :
    alookup (firmwarePhase fetch d) k = alookup d k := by
  simp [firmwarePhase, alookup_tryRead_ne fetch d REG_FIRMWARE k h]

theorem panel1Phase_keys (fetch : Nat → Except ModelError Int)
    (d : List (Nat × Int)) (k : Nat) :
    k ∈ dkeys (panel1Phase fetch d) ↔
      (panel1Gate d = true ∧ k = REG_PANEL1_FW
        ∧ isOk (fetch REG_PANEL1_FW) = true)
      ∨ k ∈ dkeys d := by
  cases hG : panel1Gate d <;>
    simp [panel1Phase, hG, mem_dkeys_tryRead]

theorem panel1Phase_lookup_ne (fetch : Nat → Except ModelError Int)
    (d : List (Nat × Int)) (k : Nat) (h : k ≠ REG_PANEL1_FW) :
    alookup (panel1Phase fetch d) k = alookup d k := by
  cases hG : panel1Gate d <;>
    simp [panel1Phase, hG, alookup_tryRead_ne fetch d REG_PANEL1_FW k h]

theorem panel2Phase_keys (fetch : Nat → Except ModelError Int)
    (d : List (Nat × Int)) (k : Nat) :
    k ∈ dkeys (panel2Phase fetch d) ↔
      (panel2Gate d = true ∧ k = REG_PANEL2_FW
        ∧ isOk (fetch REG_PANEL2_FW) = true)
      ∨ k ∈ dkeys d := by
  cases hG : panel2Gate d <;>
    simp [panel2Phase, hG, mem_dkeys_tryRead]

/-- A dictionary that reports the connected-panels word of the oracle makes
the panel-1 gate agree with the oracle-level gate. -/
theorem panel1Gate_eq_cp1 (fetch : Nat → Except ModelError Int)
    (d : List (Nat × Int))
    (hcp : alookup d REG_CONNECTED_PANELS
      = some (fetchVal fetch REG_CONNECTED_PANELS)) :
    panel1Gate d = cp1Gate fetch := by
  rw [panel1Gate, cp1Gate, dgetD, hcp]
  rfl

/-- A dictionary that reports the connected-panels word of the oracle makes
the panel-2 gate agree with the oracle-level gate. -/
theorem panel2Gate_eq_cp2 (fetch : Nat → Except ModelError Int)
    (d : List (Nat × Int))
    (hcp : alookup d REG_CONNECTED_PANELS
      = some (fetchVal fetch REG_CONNECTED_PANELS)) :
    panel2Gate d = cp2Gate fetch := by
  rw [panel2Gate, cp2Gate, dgetD, hcp]
  rfl

/-- Keys after the optional trailing phase: exactly the keys of the
mandatory snapshot plus the successfully-read attempted optional
registers. -/
theorem optionalPhase_keys (ctrl : Controller) (fv : Nat)
    (fetch : Nat → Except ModelError Int) (d0 : List (Nat × Int))
    (hcp : alookup d0 REG_CONNECTED_PANELS
      = some (fetchVal fetch REG_CONNECTED_PANELS)) (k : Nat) :
    k ∈ dkeys (optionalPhase ctrl fv fetch d0) ↔
      (k ∈ optionalRegsC6 ctrl fv fetch ∧ isOk (fetch k) = true)
      ∨ k ∈ dkeys d0 := by
  have hne1 : REG_CONNECTED_PANELS ≠ REG_EXHAUST_TEMP := by decide
  have hne2 : REG_CONNECTED_PANELS ≠ REG_FIRMWARE := by decide
  have hne3 : REG_CONNECTED_PANELS ≠ REG_PANEL1_FW := by decide
  have hcp1 : alookup (firmwarePhase fetch (exhaustPhase ctrl fv fetch d0))
      REG_CONNECTED_PANELS = some (fetchVal fetch REG_CONNECTED_PANELS) := by
    rw [firmwarePhase_lookup_ne fetch _ _ hne2,
      exhaustPhase_lookup_ne ctrl fv fetch d0 _ hne1, hcp]
  have hg1 : panel1Gate (firmwarePhase fetch (exhaustPhase ctrl fv fetch d0))
      = cp1Gate fetch := panel1Gate_eq_cp1 fetch _ hcp1
  have hcp2 : alookup (panel1Phase fetch (firmwarePhase fetch
      (exhaustPhase ctrl fv fetch d0))) REG_CONNECTED_PANELS
      = some (fetchVal fetch REG_CONNECTED_PANELS) := by
    rw [panel1Phase_lookup_ne fetch _ _ hne3, hcp1]
  have hg2 : panel2Gate (panel1Phase fetch (firmwarePhase fetch
      (exhaustPhase ctrl fv fetch d0))) = cp2Gate fetch :=
    panel2Gate_eq_cp2 fetch _ hcp2
  rw [optionalPhase, panel2Phase_keys, panel1Phase_keys, firmwarePhase_keys,
    exhaustPhase_keys, hg1, hg2]
  constructor
  · rintro (⟨hg, rfl, hok⟩ | ⟨hg, rfl, hok⟩ | ⟨rfl, hok⟩ | ⟨hg, rfl, hok⟩ | hmem)
    · exact Or.inl ⟨(mem_optionalRegsC6 ctrl fv fetch _).2
        (Or.inr (Or.inr (Or.inr ⟨hg, rfl⟩))), hok⟩
    · exact Or.inl ⟨(mem_optionalRegsC6 ctrl fv fetch _).2
        (Or.inr (Or.inr (Or.inl ⟨hg, rfl⟩))), hok⟩
    · exact Or.inl ⟨(mem_optionalRegsC6 ctrl fv fetch _).2
        (Or.inr (Or.inl rfl)), hok⟩
    · exact Or.inl ⟨(mem_optionalRegsC6 ctrl fv fetch _).2
        (Or.inl ⟨hg, rfl⟩), hok⟩
    · exact Or.inr hmem
  · rintro (⟨hopt, hok⟩ | hmem)
    · rcases (mem_optionalRegsC6 ctrl fv fetch k).1 hopt with
        ⟨hg, rfl⟩ | rfl | ⟨hg, rfl⟩ | ⟨hg, rfl⟩
      · exact Or.inr (Or.inr (Or.inr (Or.inl ⟨hg, rfl, hok⟩)))
      · exact Or.inr (Or.inr (Or.inl ⟨rfl, hok⟩))
      · exact Or.inr (Or.inl ⟨hg, rfl, hok⟩)
      · exact Or.inl ⟨hg, rfl, hok⟩
    · exact Or.inr (Or.inr (Or.inr (Or.inr hmem)))

/-! ## Claim theorems: poll cycle -/

/-- C1: in every poll cycle, a failure of any mandatory-range read aborts
the cycle, which is reported upward as `UpdateFailed` with no snapshot;
when every mandatory read succeeds the cycle returns a snapshot containing
every mandatory key, containing an attempted optional key exactly when its
read succeeded, and containing no other keys. -/
theorem poll_two_tier_policy (ctrl : Controller) (fv : Nat)
    (fetch : Nat → Except ModelError Int) :
    ((∃ r ∈ mandatoryRegs ctrl fv, isFail (fetch r) = true) →
        updateData ctrl fv fetch = .error .updateFailed)
    ∧ ((∀ r ∈ mandatoryRegs ctrl fv, isOk (fetch r) = true) →
        ∃ d, updateData ctrl fv fetch = .ok d
          ∧ (∀ r ∈ mandatoryRegs ctrl fv, r ∈ dkeys d)
          ∧ (∀ o ∈ optionalRegs ctrl fv fetch,
              (o ∈ dkeys d ↔ isOk (fetch o) = true))
          ∧ (∀ k ∈ dkeys d,
              k ∈ mandatoryRegs ctrl fv ∨ k ∈ optionalRegs ctrl fv fetch)) := by
  by_cases hc4 : ctrl = Controller.C4
  · subst hc4
    constructor
    · rintro ⟨r, hr, hfail⟩
      rw [mandatoryRegs, if_pos rfl] at hr
      have hfl := readAll_fail fetch mandatoryRegsC4 [] ⟨r, hr, hfail⟩
      rw [updateData, if_pos rfl, updateDataC4]
      cases hrun : readAll fetch mandatoryRegsC4 [] with
      | error e => rfl
      | ok d =>
          rw [hrun] at hfl
          simp [isFail] at hfl
    · intro hok
      rw [mandatoryRegs, if_pos rfl] at hok
      obtain ⟨d, hrun, hkeys, hout, hin⟩ := readAll_ok fetch mandatoryRegsC4 [] hok
      refine ⟨d, ?_, ?_, ?_, ?_⟩
      · rw [updateData, if_pos rfl, updateDataC4, hrun]
      · intro r hr
        rw [mandatoryRegs, if_pos rfl] at hr
        exact (hkeys r).2 (Or.inl hr)
      · intro o ho
        rw [optionalRegs, if_pos rfl] at ho
        cases ho
      · intro k hk
        rcases (hkeys k).1 hk with h | h
        · rw [mandatoryRegs, if_pos rfl]
          exact Or.inl h
        · simp [dkeys] at h
  · have hmr : mandatoryRegs ctrl fv = mandatoryRegsC6 ctrl fv := by
      rw [mandatoryRegs, if_neg hc4]
    have hor : optionalRegs ctrl fv fetch = optionalRegsC6 ctrl fv fetch := by
      rw [optionalRegs, if_neg hc4]
    constructor
    · rintro ⟨r, hr, hfail⟩
      rw [hmr] at hr
      have hfl := readAll_fail fetch (mandatoryRegsC6 ctrl fv) [] ⟨r, hr, hfail⟩
      rw [updateData, if_neg hc4, updateDataC6]
      cases hrun : readAll fetch (mandatoryRegsC6 ctrl fv) [] with
      | error e => rfl
      | ok d =>
          rw [hrun] at hfl
          simp [isFail] at hfl
    · intro hok
      rw [hmr] at hok
      obtain ⟨d0, hrun, hkeys0, hout0, hin0⟩ :=
        readAll_ok fetch (mandatoryRegsC6 ctrl fv) [] hok
      have hcp : alookup d0 REG_CONNECTED_PANELS
          = some (fetchVal fetch REG_CONNECTED_PANELS) :=
        hin0 REG_CONNECTED_PANELS (connected_panels_mem_mandatoryC6 ctrl fv)
      have hkeys := optionalPhase_keys ctrl fv fetch d0 hcp
      refine ⟨optionalPhase ctrl fv fetch d0, ?_, ?_, ?_, ?_⟩
      · rw [updateData, if_neg hc4, updateDataC6, hrun]
      · intro r hr
        rw [hmr] at hr
        exact (hkeys r).2 (Or.inr ((hkeys0 r).2 (Or.inl hr)))
      · intro o ho
        rw [hor] at ho
        constructor
        · intro hmem
          rcases (hkeys o).1 hmem with ⟨_, hok'⟩ | hmem0
          · exact hok'
          · exfalso
            rcases (hkeys0 o).1 hmem0 with hm | hm
            · exact optional_not_mandatoryC6 ctrl fv o
                (optionalRegsC6_sub ctrl fv fetch o ho) hm
            · simp [dkeys] at hm
        · intro hok'
          exact (hkeys o).2 (Or.inl ⟨ho, hok'⟩)
      · intro k hk
        rcases (hkeys k).1 hk with ⟨hopt, _⟩ | hmem0
        · refine Or.inr ?_
          rw [hor]
          exact hopt
        · rcases (hkeys0 k).1 hmem0 with hm | hm
          · refine Or.inl ?_
            rw [hmr]
            exact hm
          · simp [dkeys] at hm

set_option maxRecDepth 8192 in
/-- Witness for C1 on a C6 controller at functional version 70: a cycle
whose monitoring read of register 900 fails reports `UpdateFailed`; a cycle
where only the optional exhaust-temperature read (register 961) fails
returns a snapshot with every mandatory key and without exactly that
optional key. -/
theorem poll_two_tier_policy_witness :
    updateData Controller.C6 70
        (fun r => if r == 900 then .error .modbusError else .ok 1)
      = .error .updateFailed
    ∧ ∃ d, updateData Controller.C6 70
          (fun r => if r == 961 then .error .modbusError else .ok 1) = .ok d
        ∧ (∀ r ∈ mandatoryRegs Controller.C6 70, r ∈ dkeys d)
        ∧ (∀ o ∈ optionalRegs Controller.C6 70
              (fun r => if r == 961 then .error .modbusError else .ok 1),
            (o ∈ dkeys d ↔
              isOk ((fun r : Nat =>
                if r == 961 then Except.error ModelError.modbusError
                else Except.ok (1 : Int)) o) = true))
        ∧ (∀ k ∈ dkeys d, k ∈ mandatoryRegs Controller.C6 70
            ∨ k ∈ optionalRegs Controller.C6 70
                (fun r => if r == 961 then .error .modbusError else .ok 1)) :=
  ⟨(poll_two_tier_policy Controller.C6 70
      (fun r => if r == 900 then .error .modbusError else .ok 1)).1
      ⟨900, by decide, by decide⟩,
   (poll_two_tier_policy Controller.C6 70
      (fun r => if r == 961 then .error .modbusError else .ok 1)).2
      (by decide)⟩

/-- C2 counterexample: a C8 identity at functional version 0, below the
air-quality threshold 38, still requests the extended 18-register block
(its eco/air-quality slice of the plan is the 18-block and it includes the
extended-block register 215), so the claim as stated over every identity
fails. -/
theorem eco_block_gate_counterexample :
    (0 : Nat) < FUNC_VER_AQ_HUMIDITY
    ∧ REG_AQ_HUMIDITY_CONTROL ∈ mandatoryRegs Controller.C8 0
    ∧ (mandatoryRegs Controller.C8 0).filter
        (fun a => decide (200 ≤ a) && decide (a < 218))
      = sublist REG_ECO_MIN_TEMP 18 := by decide

/-- The C6 family version gate reduces to the version comparison. -/
theorem aqLegacyGate_eq (ctrl : Controller) (fv : Nat)
    (hf : ctrl = Controller.C6 ∨ ctrl = Controller.C6M) :
    aqLegacyGate ctrl fv = decide (fv < FUNC_VER_AQ_HUMIDITY) := by
  rcases hf with rfl | rfl <;> simp [aqLegacyGate]

/-- C2 amended: for the C6 and C6M families, a poll plan below the
air-quality/humidity threshold requests exactly the 15-register
eco/air-quality block starting at register 200 and never the extended
registers, and a plan at or above the threshold requests exactly the
extended 18-register block; other families always receive the extended
block (see the counterexample). -/
theorem eco_block_version_gate (ctrl : Controller) (fv : Nat)
    (hf : ctrl = Controller.C6 ∨ ctrl = Controller.C6M) :
    (mandatoryRegs ctrl fv).filter
        (fun a => decide (200 ≤ a) && decide (a < 218))
      = if fv < FUNC_VER_AQ_HUMIDITY then sublist REG_ECO_MIN_TEMP 15
        else sublist REG_ECO_MIN_TEMP 18 := by
  have hns : ctrl ≠ Controller.C4 := by
    rcases hf with rfl | rfl <;> simp
  rw [mandatoryRegs, if_neg hns]
  by_cases hv : fv < FUNC_VER_AQ_HUMIDITY
  · rw [if_pos hv]
    have hg : aqLegacyGate ctrl fv = true := by
      rw [aqLegacyGate_eq ctrl fv hf, decide_eq_true_eq]
      exact hv
    rw [mandatoryRegsC6, hg]
    decide
  · rw [if_neg hv]
    have hg : aqLegacyGate ctrl fv = false := by
      rw [aqLegacyGate_eq ctrl fv hf, decide_eq_false_iff_not]
      exact hv
    rw [mandatoryRegsC6, hg]
    decide

/-- Witness for the amended C2: a C6 identity at functional version 5
requests exactly the 15-register eco block. -/
theorem eco_block_version_gate_witness :
    (mandatoryRegs Controller.C6 5).filter
        (fun a => decide (200 ≤ a) && decide (a < 218))
      = sublist REG_ECO_MIN_TEMP 15 := by
  have h := eco_block_version_gate Controller.C6 5 (Or.inl rfl)
  rwa [if_pos (by decide)] at h

end Komfovent
